import Mathlib

/-!
# Verification of the receipt-tracker event ingestion pipeline

Shallow embedding of `src/server.js` (RajaOle/antiscam): the event
ingestion and enrichment pipeline (`logEvent`), the IP geolocation
resolver (`geoFromIP`), the upload/attach-image route, and the events
read surface (`GET /api/events`).

JavaScript numbers are modelled as exact rationals (`ℚ`); every claim
under study is about pass-through, selection and nullness of numeric
fields, never about rounding, so the model is faithful on the inputs
that matter.  JavaScript `null`/`undefined` field values are modelled
with `Option`; the code only ever distinguishes them via `!= null`,
which treats both alike.
-/

/-- JS `s.split(sep)` for a one-character separator: like JS,
splitting the empty string yields `[""]` and separators at the ends
yield empty pieces. -/
def jsSplitChar (sep : Char) (s : String) : List String :=
  (s.toList.foldr
    (fun c acc =>
      if c = sep then [] :: acc
      else
        match acc with
        | h :: t => (c :: h) :: t
        | [] => [[c]])
    [[]]).map String.mk

/-- JS `s.trim()`: strip whitespace from both ends. -/
def jsTrim (s : String) : String :=
  String.mk (((s.toList.dropWhile Char.isWhitespace).reverse.dropWhile
    Char.isWhitespace).reverse)

/-- `leadsWith pat s`: the char list `pat` is an initial segment of `s`. -/
def leadsWith : List Char → List Char → Bool
  | [], _ => true
  | _ :: _, [] => false
  | a :: as, b :: bs => a == b && leadsWith as bs

/-- JS `s.startsWith(pat)`. -/
def strStarts (s pat : String) : Bool :=
  leadsWith pat.toList s.toList

/-- `pat` occurs as a contiguous run inside `s`. -/
def hasSub (pat : List Char) : List Char → Bool
  | [] => leadsWith pat []
  | c :: t => leadsWith pat (c :: t) || hasSub pat t

/-- One decimal digit of a JS numeric literal. -/
def decDigit (c : Char) : Option Nat :=
  if c.isDigit then some (c.toNat - 48) else none

/-- Value of a non-empty all-digit string; `none` when any char is not a digit. -/
def digitsVal (l : List Char) : Option Nat :=
  l.foldlM (fun acc c => (decDigit c).map (fun d => acc * 10 + d)) 0

/-- Unsigned part of JS `Number(...)` on a decimal literal: `"37"`, `"37.5"`,
`".5"`, `"5."` parse; `""`, `"."`, `"garbage"` do not. -/
def parseUnsigned (s : String) : Option ℚ :=
  match jsSplitChar '.' s with
  | [a] =>
    if a = "" then none
    else (digitsVal a.toList).map (fun n => (n : ℚ))
  | [a, b] =>
    if a = "" && b = "" then none
    else do
      let ia ← if a = "" then some 0 else digitsVal a.toList
      let fb ← if b = "" then some 0 else digitsVal b.toList
      pure ((ia : ℚ) + (fb : ℚ) / ((10 : ℚ) ^ b.length))
  | _ => none

/-- Model of the JS coercion `Number(s)` combined with the
`Number.isFinite` guard used at `server.js:196-197`: `some q` when the
string is a finite decimal numeral, `none` otherwise.  JS oddity kept:
`Number('')` and `Number('  ')` are `0`, hence finite.  Hexadecimal and
exponent forms (never produced by the geo service's `loc` field) are
treated as unparsable. -/
def parseJsNumber (s : String) : Option ℚ :=
  let t := jsTrim s
  if t = "" then some 0
  else if strStarts t "-" then (parseUnsigned (t.drop 1)).map (fun q => -q)
  else if strStarts t "+" then parseUnsigned (t.drop 1)
  else parseUnsigned t

/-- JSON body returned by the external geo service (`ipinfo.io`), fields
`ip, city, region, country, org, loc` per `server.js:189-199`.  A field
that is absent, `null` or the empty string (all falsy under the code's
`||` defaulting) is `none`. -/
structure IpinfoBody where
  ip : Option String
  city : Option String
  region : Option String
  country : Option String
  org : Option String
  loc : Option String
deriving Repr, DecidableEq

/-- Outcome of the single `fetch` to the geo service.
`thrown` models a rejected promise (network error or the 3s timeout);
`response ok body` models an HTTP response with status flag `ok`, where
`body = none` means `r.json()` rejects (malformed body). -/
inductive FetchOutcome where
  | thrown (msg : String)
  | response (ok : Bool) (body : Option IpinfoBody)
deriving Repr, DecidableEq

/-- The geo enrichment object built at `server.js:190-200`. -/
structure GeoEnrichment where
  ip : String
  city : Option String
  region : Option String
  country : Option String
  asn : Option String
  lat : Option ℚ
  lon : Option ℚ
  accuracyRadiusM : ℚ
deriving Repr, DecidableEq

/-- The guard at `server.js:182`:
`if (!ip || ip === '::1' || ip.startsWith('::ffff:127.')) return null`. -/
def geoShortCircuit (ip : String) : Bool :=
  ip = "" || ip = "::1" || strStarts ip "::ffff:127."

/-- Enrichment assembled from a parsed JSON body (`server.js:189-200`):
`loc` is split on a comma and each part coerced with `Number`,
non-finite results becoming `null`; the accuracy radius is the fixed
constant 25000. -/
def enrichmentOfBody (ip : String) (j : IpinfoBody) : GeoEnrichment :=
  let ps := jsSplitChar ',' (j.loc.getD "")
  { ip := j.ip.getD ip
    city := j.city
    region := j.region
    country := j.country
    asn := j.org
    lat := (ps.get? 0).bind parseJsNumber
    lon := (ps.get? 1).bind parseJsNumber
    accuracyRadiusM := 25000 }

/-- The body of `geoFromIP`'s `try` block (`server.js:181-200`), before
the surrounding `catch`: `Except.error` marks an exception in flight
(rejected fetch, or `r.json()` rejecting on a malformed body). -/
def geoFromIPBody (env : String → FetchOutcome) (ip : String) :
    Except String (Option GeoEnrichment) :=
  if geoShortCircuit ip then Except.ok none
  else
    match env ip with
    | FetchOutcome.thrown msg => Except.error msg
    | FetchOutcome.response ok body =>
      if !ok then Except.ok none
      else
        match body with
        | none => Except.error "invalid json"
        | some j => Except.ok (some (enrichmentOfBody ip j))

/-- `geoFromIP` (`server.js:180-204`): the `catch` at line 201 turns any
exception into `null`. -/
def geoFromIP (env : String → FetchOutcome) (ip : String) : Option GeoEnrichment :=
  match geoFromIPBody env ip with
  | Except.ok v => v
  | Except.error _ => none

/-- HTTP request context seen by the pipeline: the headers and socket
fields `logEvent` reads (`server.js:176-177, 208-210`). -/
structure RequestCtx where
  forwardedFor : Option String
  remoteAddress : Option String
  referer : Option String
  userAgent : Option String
deriving Repr, DecidableEq

/-- `clientIP` (`server.js:176-178`): first hop of `x-forwarded-for`
(trimmed; an empty result is falsy), else the socket peer address, else
the empty string. -/
def clientIP (req : RequestCtx) : String :=
  let fwd :=
    match req.forwardedFor with
    | some s => jsTrim ((jsSplitChar ',' s).headD "")
    | none => ""
  if fwd = "" then req.remoteAddress.getD "" else fwd

/-- Result of client-signature classification:
device/OS/browser families plus the bot flag. -/
structure UAResult where
  deviceFamily : Option String
  osFamily : Option String
  browserFamily : Option String
  isBot : Bool
deriving Repr, DecidableEq

/-- Modelled from the spec: the UAClassifier capability.  In the source
this is `ua-parser-js` plus `isbot` (`server.js:211-213`), third-party
libraries whose code is not part of this repository; the spec fixes the
contract: deterministic, no I/O, driven by a static ruleset of
device/OS/browser/bot signature patterns, with missing or empty input
yielding all-null families and `isBot = false`.  The static ruleset
below is a representative instance of that contract. -/
def uaRules : List (String × UAResult) :=
  [ ("Googlebot", ⟨none, none, none, true⟩)
  , ("bot", ⟨none, none, none, true⟩)
  , ("iPhone", ⟨some "iPhone", some "iOS", some "Mobile Safari", false⟩)
  , ("Android", ⟨some "mobile", some "Android", some "Chrome", false⟩)
  , ("Windows", ⟨none, some "Windows", some "Chrome", false⟩)
  , ("Macintosh", ⟨none, some "macOS", some "Safari", false⟩) ]

/-- `true` when `pat` occurs as a substring of `s`. -/
def containsPat (s pat : String) : Bool :=
  hasSub pat.toList s.toList

/-- Modelled from the spec: `classify(signature)`; first matching rule of
the static ruleset wins, empty signature yields all-null and not-bot. -/
def classify (sig : String) : UAResult :=
  if sig = "" then ⟨none, none, none, false⟩
  else
    match uaRules.find? (fun r => containsPat sig r.1) with
    | some r => r.2
    | none => ⟨none, none, none, false⟩

/-- The client-supplied extra-facts object passed to `logEvent`
(`server.js:206`, call sites at 388 and 397-399).  `none` on a field
models a JS value that is `null` or `undefined`: the pipeline only ever
tests fields with `!= null`, which treats both alike.  `deviceMeta` is
the opaque device-description blob of the device-facts call. -/
structure ClientFacts where
  latitude : Option ℚ := none
  longitude : Option ℚ := none
  accuracy : Option ℚ := none
  accuracySource : Option String := none
  accuracyRadiusM : Option ℚ := none
  deviceMeta : Option String := none
deriving Repr, DecidableEq

/-- The parameter row bound into the `INSERT INTO events` statement
(`server.js:224-237`).  `payload` holds the serialized extra-facts
object when one was supplied: at every call site a supplied object has
at least one key, so `Object.keys(extra).length` is nonzero exactly
when `extra` is present. -/
structure EventRow where
  linkSlug : Option String
  type : String
  ip : Option String
  ipAsn : Option String
  country : Option String
  region : Option String
  city : Option String
  ua : Option String
  deviceFamily : Option String
  osFamily : Option String
  browserFamily : Option String
  referer : Option String
  isBot : Bool
  latitude : Option ℚ
  longitude : Option ℚ
  accuracyM : Option ℚ
  accuracySource : Option String
  accuracyRadiusM : Option ℚ
  payload : Option ClientFacts
deriving Repr, DecidableEq

/-- Outcome of the storage write (`dbExecute` at `server.js:238`):
either the insert succeeds or the backend throws. -/
inductive StorageOutcome where
  | ok
  | failure (msg : String)
deriving Repr, DecidableEq

/-- The event assembly of `logEvent`'s `try` block (`server.js:208-237`):
extract IP, classify the signature, resolve geo, reconcile coordinate
sources, and build the insert parameters. -/
def buildEvent (env : String → FetchOutcome) (slug : Option String)
    (type : String) (req : RequestCtx) (extra : Option ClientFacts) : EventRow :=
  let ip := clientIP req
  let ref := match req.referer with | some "" => none | x => x
  let uaStr := req.userAgent.getD ""
  let uar := classify uaStr
  let ipg := geoFromIP env ip
  let exLat := extra.bind (fun e => e.latitude)
  let exLon := extra.bind (fun e => e.longitude)
  let exAcc := extra.bind (fun e => e.accuracy)
  { linkSlug := slug
    type := type
    ip := if ip = "" then none else some ip
    ipAsn := ipg.bind (fun g => g.asn)
    country := ipg.bind (fun g => g.country)
    region := ipg.bind (fun g => g.region)
    city := ipg.bind (fun g => g.city)
    ua := if uaStr = "" then none else some uaStr
    deviceFamily := uar.deviceFamily
    osFamily := uar.osFamily
    browserFamily := uar.browserFamily
    referer := ref
    isBot := uar.isBot
    latitude := match exLat with | some v => some v | none => ipg.bind (fun g => g.lat)
    longitude := match exLon with | some v => some v | none => ipg.bind (fun g => g.lon)
    accuracyM := exAcc
    accuracySource :=
      if exLat.isSome then some "browser"
      else if ipg.isSome then some "ip" else none
    accuracyRadiusM :=
      match exAcc with
      | some v => some v
      | none => ipg.map (fun g => g.accuracyRadiusM)
    payload := extra }

/-- `logEvent`'s `try` block (`server.js:207-238`): build the row, then
attempt the storage write; a storage failure is an exception in
flight. -/
def logEventBody (env : String → FetchOutcome) (store : StorageOutcome)
    (slug : Option String) (type : String) (req : RequestCtx)
    (extra : Option ClientFacts) : Except String EventRow :=
  let row := buildEvent env slug type req extra
  match store with
  | StorageOutcome.ok => Except.ok row
  | StorageOutcome.failure msg => Except.error msg

/-- `logEvent` (`server.js:206-243`): the `catch` at line 239 logs the
error and returns normally, so the caller sees `Except.ok` carrying
either the persisted row or `none` for the logged no-op. -/
def logEvent (env : String → FetchOutcome) (store : StorageOutcome)
    (slug : Option String) (type : String) (req : RequestCtx)
    (extra : Option ClientFacts) : Except String (Option EventRow) :=
  match logEventBody env store slug type req extra with
  | Except.ok row => Except.ok (some row)
  | Except.error _ => Except.ok none

/-- JSON body of the `POST /api/collect/location` call
(`server.js:392-401`).  A numeric field is `some q` when the client sent
a JS number (the route guards each with `typeof === 'number'`), `none`
otherwise; `accuracySource` is the client's provenance tag, `none` when
absent (and an empty-string tag, falsy under `||`, is also `none`). -/
structure LocationBody where
  slug : Option String
  latitude : Option ℚ
  longitude : Option ℚ
  accuracy : Option ℚ
  accuracySource : Option String
deriving Repr, DecidableEq

/-- The extra-facts object the location route passes to `logEvent`
(`server.js:397-399`): validated coordinates, accuracy, the tag
defaulted to `'browser'`, and `accuracyRadiusM` mirroring accuracy. -/
def locationExtra (b : LocationBody) : ClientFacts :=
  { latitude := b.latitude
    longitude := b.longitude
    accuracy := b.accuracy
    accuracySource := some (b.accuracySource.getD "browser")
    accuracyRadiusM := b.accuracy
    deviceMeta := none }

/-- `POST /api/collect/location` (`server.js:392-401`): validate the
body fields and hand them to `logEvent` as location facts. -/
def collectLocation (env : String → FetchOutcome) (store : StorageOutcome)
    (req : RequestCtx) (b : LocationBody) : Except String (Option EventRow) :=
  logEvent env store b.slug "location" req (some (locationExtra b))

/-- A stored tracking link (`links` table): slug, optional title,
optional image path. -/
structure Link where
  slug : String
  title : Option String
  imagePath : Option String
deriving Repr, DecidableEq

/-- Response of the `POST /api/upload` route (`server.js:259-270`).
`notFound` is never produced by the route's code; it is included so the
spec's claimed behaviour is statable against the code's. -/
inductive UploadResponse where
  | ok (image : String)
  | badRequest
  | notFound
  | serverError (msg : String)
deriving Repr, DecidableEq

/-- `POST /api/upload` (`server.js:259-270`): reject a missing/empty
slug or missing file with 400; otherwise run
`UPDATE links SET image_path=? WHERE slug=?` — a plain SQL update that
touches every row whose slug matches (at most one, slugs being unique)
and succeeds with `{ok:true}` whether or not any row matched. -/
def attachImageRoute (links : List Link) (slug : Option String)
    (file : Option String) : List Link × UploadResponse :=
  match slug, file with
  | some s, some f =>
    if s = "" then (links, UploadResponse.badRequest)
    else
      let p := "/uploads/" ++ f
      (links.map (fun l => if l.slug = s then { l with imagePath := some p } else l),
       UploadResponse.ok p)
  | _, _ => (links, UploadResponse.badRequest)

/-- A persisted event row as read back by `GET /api/events`: the
ordering key `occurred_at`, the filter key `link_slug`, and a surrogate
id distinguishing rows. -/
structure StoredEvent where
  id : Nat
  linkSlug : String
  occurredAt : Nat
deriving Repr, DecidableEq

/-- The ordering `ORDER BY occurred_at DESC`. -/
def newestFirst (a b : StoredEvent) : Prop :=
  b.occurredAt ≤ a.occurredAt

instance : DecidableRel newestFirst := fun a b =>
  inferInstanceAs (Decidable (b.occurredAt ≤ a.occurredAt))

instance : IsTotal StoredEvent newestFirst :=
  ⟨fun a b => Nat.le_total b.occurredAt a.occurredAt⟩

instance : IsTrans StoredEvent newestFirst :=
  ⟨fun _ _ _ h₁ h₂ => Nat.le_trans h₂ h₁⟩

/-- `GET /api/events` (`server.js:528-543`):
`SELECT ... FROM events WHERE link_slug=? ORDER BY occurred_at DESC
LIMIT 1000`, modelled as filter, sort newest-first, take 1000. -/
def listEvents (events : List StoredEvent) (slug : String) : List StoredEvent :=
  (((events.filter (fun e => e.linkSlug = slug)).insertionSort newestFirst).take 1000)

/-- A fetch outcome is a failure of the lookup itself: the promise
rejects (network error / timeout), the response is non-success, or the
body is malformed so `r.json()` rejects. -/
def fetchFailed : FetchOutcome → Prop
  | FetchOutcome.thrown _ => True
  | FetchOutcome.response ok body => ok = false ∨ body = none

instance (o : FetchOutcome) : Decidable (fetchFailed o) := by
  cases o with
  | thrown msg => exact isTrue trivial
  | response ok body => exact inferInstanceAs (Decidable (ok = false ∨ body = none))

/-- An event row with its payload column erased, for stating that two
rows agree on every other column. -/
def erasePayload (r : EventRow) : EventRow :=
  { r with payload := none }

/-- A successful geo-service body: New York at `loc = "40,-74"`. -/
def bodySuccess : IpinfoBody :=
  ⟨some "8.8.8.8", some "New York", some "NY", some "US", some "AS15169 Google", some "40,-74"⟩

/-- Environment in which every fetch succeeds with `bodySuccess`. -/
def envSuccess : String → FetchOutcome := fun _ =>
  FetchOutcome.response true (some bodySuccess)

/-- Environment in which every fetch rejects (network error / timeout). -/
def envThrown : String → FetchOutcome := fun _ =>
  FetchOutcome.thrown "timeout"

/-- Environment in which the fetch succeeds but the body's `loc` field
is not a parsable coordinate string. -/
def envGarbageLoc : String → FetchOutcome := fun _ =>
  FetchOutcome.response true (some ⟨none, none, none, none, none, some "garbage"⟩)

/-- A plain request: no forwarded-for header, a public peer address, no
referer, no user-agent. -/
def reqBasic : RequestCtx := ⟨none, some "8.8.8.8", none, none⟩

/-- C1: every call to `logEvent`, whatever the link slug, event type,
request context, client facts, geo-fetch behaviour and storage outcome,
returns normally (`Except.ok`) and never surfaces an exception to its
caller. -/
theorem logEvent_never_propagates (env : String → FetchOutcome)
    (store : StorageOutcome) (slug : Option String) (ty : String)
    (req : RequestCtx) (extra : Option ClientFacts) :
    ∃ v, logEvent env store slug ty req extra = Except.ok v := by
  cases store <;> exact ⟨_, rfl⟩

/-- C5 (amended): a failure of the lookup itself — rejected fetch
(timeout / network error), non-success HTTP response, or malformed body
— collapses to the absent outcome; every in-flight exception is caught,
so the operation never raises; but a successfully fetched and parsed
body always yields an enrichment (whose coordinate fields are merely
null when the `loc` string is unparsable), not absence. -/
theorem geoFromIP_failure_modes (env : String → FetchOutcome) (ip : String) :
    (fetchFailed (env ip) → geoFromIP env ip = none) ∧
    (∀ e, geoFromIPBody env ip = Except.error e → geoFromIP env ip = none) ∧
    (∀ j, geoShortCircuit ip = false → env ip = FetchOutcome.response true (some j) →
      geoFromIP env ip = some (enrichmentOfBody ip j)) := by
  refine ⟨?_, ?_, ?_⟩
  · intro hfail
    unfold geoFromIP geoFromIPBody
    by_cases hsc : geoShortCircuit ip
    · simp [hsc]
    · simp only [hsc, if_false, Bool.false_eq_true]
      cases henv : env ip with
      | thrown msg => simp
      | response ok body =>
        cases hfail' : ok with
        | false => simp
        | true =>
          rw [henv] at hfail
          rcases hfail with h | h
          · rw [hfail'] at h; exact absurd h (by simp)
          · subst h; simp
  · intro e h
    unfold geoFromIP
    rw [h]
  · intro j hsc henv
    unfold geoFromIP geoFromIPBody
    simp [hsc, henv]

/-- C5 counterexample: with a successful fetch whose `loc` field is the
unparsable string `"garbage"`, `geoFromIP` does not return the absent
outcome; it returns an enrichment whose coordinates are null — refuting
the claim that an unparsable coordinate string results in no enrichment
at all. -/
theorem geoFromIP_unparsable_loc_cex :
    parseJsNumber "garbage" = none ∧
    geoFromIP envGarbageLoc "8.8.8.8" ≠ none ∧
    (geoFromIP envGarbageLoc "8.8.8.8").bind (fun g => g.lat) = none ∧
    (geoFromIP envGarbageLoc "8.8.8.8").bind (fun g => g.lon) = none := by
  refine ⟨?_, ?_, ?_, ?_⟩ <;> decide

/-- C5 witness: the failure cases and the parsed-body case of
`geoFromIP_failure_modes` at concrete inputs. -/
theorem geoFromIP_failure_modes_witness :
    fetchFailed (envThrown "8.8.8.8") ∧ geoFromIP envThrown "8.8.8.8" = none ∧
    geoShortCircuit "9.9.9.9" = false ∧
    geoFromIP envSuccess "9.9.9.9" = some (enrichmentOfBody "9.9.9.9" bodySuccess) :=
  ⟨trivial,
   (geoFromIP_failure_modes envThrown "8.8.8.8").1 trivial,
   rfl,
   (geoFromIP_failure_modes envSuccess "9.9.9.9").2.2 bodySuccess rfl rfl⟩

/-- C6 (amended): exactly the addresses caught by the guard — the empty
address, the IPv6 loopback `::1`, and IPv4-mapped loopback addresses
`::ffff:127.*` — short-circuit to absent without consulting the external
service (the result is independent of the fetch environment); other
loopback or private addresses such as `127.0.0.1` or `192.168.1.1` are
passed to the service. -/
theorem geoFromIP_shortCircuit (ip : String) (h : geoShortCircuit ip = true)
    (env env' : String → FetchOutcome) :
    geoFromIP env ip = none ∧ geoFromIP env ip = geoFromIP env' ip := by
  unfold geoFromIP geoFromIPBody
  simp [h]

/-- C6 counterexample: `127.0.0.1` is a loopback address, yet the guard
does not short-circuit it: the resolver issues the external call (its
result depends on the fetch environment) and can return an enrichment
rather than absence. -/
theorem geoFromIP_loopback_cex :
    geoShortCircuit "127.0.0.1" = false ∧
    geoFromIP envSuccess "127.0.0.1" ≠ none ∧
    geoFromIP envSuccess "127.0.0.1" ≠ geoFromIP envThrown "127.0.0.1" ∧
    geoShortCircuit "192.168.1.1" = false := by
  refine ⟨?_, ?_, ?_, ?_⟩ <;> decide

/-- C6 witness: the short-circuit theorem at the IPv6 loopback `::1`. -/
theorem geoFromIP_shortCircuit_witness :
    geoShortCircuit "::1" = true ∧
    geoFromIP envSuccess "::1" = none ∧ geoFromIP envSuccess "::1" = geoFromIP envThrown "::1" :=
  ⟨rfl, geoFromIP_shortCircuit "::1" rfl envSuccess envThrown⟩

/-- On a successful storage write, the row `logEvent` reports persisted
is exactly the row assembled by `buildEvent`. -/
theorem logEvent_ok_row (env : String → FetchOutcome) (slug : Option String)
    (ty : String) (req : RequestCtx) (extra : Option ClientFacts) (row : EventRow)
    (h : logEvent env StorageOutcome.ok slug ty req extra = Except.ok (some row)) :
    row = buildEvent env slug ty req extra := by
  simp [logEvent, logEventBody] at h
  exact h.symm

/-- Every enrichment `geoFromIP` returns carries the fixed 25000-meter
accuracy radius. -/
theorem geoFromIP_radius_const (env : String → FetchOutcome) (ip : String)
    (g : GeoEnrichment) (h : geoFromIP env ip = some g) :
    g.accuracyRadiusM = 25000 := by
  unfold geoFromIP geoFromIPBody at h
  by_cases hsc : geoShortCircuit ip = true
  · simp [hsc] at h
  · simp only [hsc, if_false, Bool.false_eq_true] at h
    cases henv : env ip with
    | thrown m => rw [henv] at h; simp at h
    | response ok body =>
      rw [henv] at h
      cases ok with
      | false => simp at h
      | true =>
        cases body with
        | none => simp at h
        | some j => simp at h; rw [← h]; rfl

/-- Location facts with coordinates but no accuracy. -/
def cfLatLonOnly : ClientFacts := { latitude := some 37, longitude := some (-122) }

/-- The row persisted for `cfLatLonOnly` under a successful geo lookup. -/
def cexRowC2 : EventRow :=
  buildEvent envSuccess (some "s") "location" reqBasic (some cfLatLonOnly)

/-- C2 counterexample: client facts carrying explicit coordinates but no
accuracy, with a successful IP lookup, persist
`accuracyRadiusMeters = 25000` (the IP radius), not null as the claim
requires — the accuracy-radius fallback does consult the IP
enrichment. -/
theorem logEvent_browser_radius_cex :
    cfLatLonOnly.latitude = some 37 ∧ cfLatLonOnly.longitude = some (-122) ∧
    cfLatLonOnly.accuracy = none ∧
    logEvent envSuccess StorageOutcome.ok (some "s") "location" reqBasic (some cfLatLonOnly)
      = Except.ok (some cexRowC2) ∧
    cexRowC2.accuracyRadiusM = some 25000 := by
  refine ⟨rfl, rfl, rfl, rfl, by decide⟩

/-- C2 (amended): when the client facts carry explicit numeric latitude
and longitude, the persisted event has exactly those coordinates and
`accuracySource = browser`, irrespective of IP-based resolution;
`accuracyM` mirrors the client accuracy; and `accuracyRadiusM` equals
the client accuracy when one was supplied, but falls back to the IP
enrichment's radius (25000 when the lookup succeeded, null otherwise)
when the client facts carry no accuracy. -/
theorem logEvent_browser_coordinates (env : String → FetchOutcome)
    (slug : Option String) (ty : String) (req : RequestCtx)
    (cf : ClientFacts) (la lo : ℚ) (row : EventRow)
    (hp : logEvent env StorageOutcome.ok slug ty req (some cf) = Except.ok (some row))
    (hla : cf.latitude = some la) (hlo : cf.longitude = some lo) :
    row.latitude = some la ∧ row.longitude = some lo ∧
    row.accuracySource = some "browser" ∧
    row.accuracyM = cf.accuracy ∧
    row.accuracyRadiusM =
      (match cf.accuracy with
       | some a => some a
       | none => (geoFromIP env (clientIP req)).map (fun g => g.accuracyRadiusM)) := by
  have hrow := logEvent_ok_row _ _ _ _ _ _ hp
  subst hrow
  refine ⟨?_, ?_, ?_, ?_, ?_⟩ <;>
    simp [buildEvent, hla, hlo]

/-- C2 witness: the amended theorem at the spec's own example inputs
(latitude 37, longitude −122, accuracy 15). -/
theorem logEvent_browser_coordinates_witness :
    (buildEvent envSuccess (some "s") "location" reqBasic
        (some { latitude := some 37, longitude := some (-122), accuracy := some 15 })).latitude
      = some 37 ∧
    (buildEvent envSuccess (some "s") "location" reqBasic
        (some { latitude := some 37, longitude := some (-122), accuracy := some 15 })).longitude
      = some (-122) ∧
    (buildEvent envSuccess (some "s") "location" reqBasic
        (some { latitude := some 37, longitude := some (-122), accuracy := some 15 })).accuracySource
      = some "browser" ∧
    (buildEvent envSuccess (some "s") "location" reqBasic
        (some { latitude := some 37, longitude := some (-122), accuracy := some 15 })).accuracyM
      = some 15 ∧
    (buildEvent envSuccess (some "s") "location" reqBasic
        (some { latitude := some 37, longitude := some (-122), accuracy := some 15 })).accuracyRadiusM
      = some 15 :=
  logEvent_browser_coordinates envSuccess (some "s") "location" reqBasic
    { latitude := some 37, longitude := some (-122), accuracy := some 15 }
    37 (-122) _ rfl rfl rfl

/-- Location facts carrying a longitude but no latitude. -/
def cfLonOnly : ClientFacts := { longitude := some 10 }

/-- The row persisted for `cfLonOnly` when the geo lookup fails. -/
def cexRowC3 : EventRow :=
  buildEvent envThrown (some "s") "location" reqBasic (some cfLonOnly)

/-- C3 counterexample: a call supplying a longitude but no latitude,
with a failed geo lookup, persists `accuracySource = null` together with
a non-null longitude — refuting the claim that a null accuracySource
forces both coordinate fields to be null. -/
theorem accuracySource_cex :
    cfLonOnly.latitude = none ∧ cfLonOnly.longitude = some 10 ∧
    logEvent envThrown StorageOutcome.ok (some "s") "location" reqBasic (some cfLonOnly)
      = Except.ok (some cexRowC3) ∧
    cexRowC3.accuracySource = none ∧
    cexRowC3.longitude = some 10 := by
  refine ⟨rfl, rfl, rfl, by decide, by decide⟩

/-- C3 (amended): `accuracySource = browser` iff the triggering call
supplied an explicit numeric latitude (the longitude is not consulted);
otherwise `ip` iff the geo lookup succeeded; otherwise null — and in the
null case the latitude field is null while the longitude field equals
the client-supplied longitude, if any (null when none was supplied). -/
theorem accuracySource_invariant (env : String → FetchOutcome)
    (slug : Option String) (ty : String) (req : RequestCtx)
    (extra : Option ClientFacts) (row : EventRow)
    (hp : logEvent env StorageOutcome.ok slug ty req extra = Except.ok (some row)) :
    (row.accuracySource = some "browser" ↔ (extra.bind (fun e => e.latitude)).isSome) ∧
    (row.accuracySource = some "ip" ↔
      (extra.bind (fun e => e.latitude) = none ∧ (geoFromIP env (clientIP req)).isSome)) ∧
    (row.accuracySource = none →
      row.latitude = none ∧ row.longitude = extra.bind (fun e => e.longitude)) := by
  have hrow := logEvent_ok_row _ _ _ _ _ _ hp
  subst hrow
  have hbi : ("browser" : String) ≠ "ip" := by decide
  cases hl : extra.bind (fun e => e.latitude) with
  | some la =>
    refine ⟨by simp [buildEvent, hl], by simp [buildEvent, hl, hbi], ?_⟩
    intro hnone
    simp [buildEvent, hl] at hnone
  | none =>
    cases hg : geoFromIP env (clientIP req) with
    | some g =>
      refine ⟨by simp [buildEvent, hl, hg, hbi.symm], by simp [buildEvent, hl, hg], ?_⟩
      intro hnone
      simp [buildEvent, hl, hg] at hnone
    | none =>
      refine ⟨by simp [buildEvent, hl, hg], by simp [buildEvent, hl, hg], ?_⟩
      intro _
      cases hlon : extra.bind (fun e => e.longitude) <;>
        simp [buildEvent, hl, hg, hlon]

/-- C3 witness: the invariant at a concrete persisted event — no client
latitude, successful geo lookup, hence `accuracySource = ip`. -/
theorem accuracySource_invariant_witness :
    ((buildEvent envSuccess (some "s") "view" reqBasic none).accuracySource = some "browser"
      ↔ ((none : Option ClientFacts).bind (fun e => e.latitude)).isSome) ∧
    ((buildEvent envSuccess (some "s") "view" reqBasic none).accuracySource = some "ip"
      ↔ ((none : Option ClientFacts).bind (fun e => e.latitude) = none ∧
         (geoFromIP envSuccess (clientIP reqBasic)).isSome)) ∧
    ((buildEvent envSuccess (some "s") "view" reqBasic none).accuracySource = none →
      (buildEvent envSuccess (some "s") "view" reqBasic none).latitude = none ∧
      (buildEvent envSuccess (some "s") "view" reqBasic none).longitude
        = (none : Option ClientFacts).bind (fun e => e.longitude)) :=
  accuracySource_invariant envSuccess (some "s") "view" reqBasic none _ rfl

/-- Client facts carrying an accuracy but no coordinates. -/
def cfAccOnly : ClientFacts := { accuracy := some 15 }

/-- The row persisted for `cfAccOnly` under a successful geo lookup. -/
def cexRowC4 : EventRow :=
  buildEvent envSuccess (some "s") "view" reqBasic (some cfAccOnly)

/-- C4 counterexample: client facts with no coordinates but a numeric
accuracy of 15, under a successful geo lookup, persist the enrichment's
coordinates and `accuracySource = ip` — but `accuracyRadiusMeters = 15`,
not the fixed 25000-meter IP constant the claim requires. -/
theorem logEvent_ip_radius_cex :
    cfAccOnly.latitude = none ∧ cfAccOnly.longitude = none ∧
    cfAccOnly.accuracy = some 15 ∧
    logEvent envSuccess StorageOutcome.ok (some "s") "view" reqBasic (some cfAccOnly)
      = Except.ok (some cexRowC4) ∧
    cexRowC4.accuracySource = some "ip" ∧
    cexRowC4.latitude = some 40 ∧ cexRowC4.longitude = some (-74) ∧
    cexRowC4.accuracyRadiusM = some 15 ∧
    cexRowC4.accuracyRadiusM ≠ some 25000 := by
  refine ⟨rfl, rfl, rfl, rfl, by decide, by decide, by decide, by decide, by decide⟩

/-- C4 (amended): when the client facts carry no explicit coordinates
and the geo lookup returned an enrichment, the persisted event uses the
enrichment's coordinates and `accuracySource = ip`, and
`accuracyRadiusMeters` is the fixed IP constant 25000 — unless the
client facts carry a numeric accuracy, which overrides the constant. -/
theorem logEvent_ip_enrichment (env : String → FetchOutcome)
    (slug : Option String) (ty : String) (req : RequestCtx)
    (extra : Option ClientFacts) (g : GeoEnrichment) (row : EventRow)
    (hp : logEvent env StorageOutcome.ok slug ty req extra = Except.ok (some row))
    (hla : extra.bind (fun e => e.latitude) = none)
    (hlo : extra.bind (fun e => e.longitude) = none)
    (hg : geoFromIP env (clientIP req) = some g) :
    row.latitude = g.lat ∧ row.longitude = g.lon ∧
    row.accuracySource = some "ip" ∧
    row.accuracyRadiusM =
      (match extra.bind (fun e => e.accuracy) with
       | some a => some a
       | none => some 25000) := by
  have hrow := logEvent_ok_row _ _ _ _ _ _ hp
  subst hrow
  have hrad := geoFromIP_radius_const env (clientIP req) g hg
  refine ⟨by simp [buildEvent, hla, hg], by simp [buildEvent, hlo, hg], by simp [buildEvent, hla, hg], ?_⟩
  cases hacc : extra.bind (fun e => e.accuracy) <;>
    simp [buildEvent, hacc, hg, hrad]

/-- C4 witness: the amended theorem at a concrete no-client-location
view event with a successful lookup at `loc = "40,-74"`. -/
theorem logEvent_ip_enrichment_witness :
    (buildEvent envSuccess (some "s") "view" reqBasic none).latitude
      = (enrichmentOfBody "8.8.8.8" bodySuccess).lat ∧
    (buildEvent envSuccess (some "s") "view" reqBasic none).longitude
      = (enrichmentOfBody "8.8.8.8" bodySuccess).lon ∧
    (buildEvent envSuccess (some "s") "view" reqBasic none).accuracySource = some "ip" ∧
    (buildEvent envSuccess (some "s") "view" reqBasic none).accuracyRadiusM = some 25000 :=
  logEvent_ip_enrichment envSuccess (some "s") "view" reqBasic none
    (enrichmentOfBody "8.8.8.8" bodySuccess) _ rfl rfl rfl (by decide)

/-- A one-link store whose only slug is `"abc"`. -/
def linksOne : List Link := [⟨"abc", none, none⟩]

/-- C7 counterexample: `attachImage` on a slug absent from the store
does not fail with NotFound — the SQL update matches no row, writes
nothing, and the route still answers `{ok:true}`. -/
theorem attachImage_unknown_slug_cex :
    (∀ l ∈ linksOne, l.slug ≠ "x") ∧
    attachImageRoute linksOne (some "x") (some "f.png")
      = (linksOne, UploadResponse.ok "/uploads/f.png") ∧
    (attachImageRoute linksOne (some "x") (some "f.png")).2 ≠ UploadResponse.notFound := by
  refine ⟨by decide, by decide, by decide⟩

/-- C7 (amended): for a non-empty slug and a supplied file, the route
never reports NotFound: on a slug absent from the store it performs a
no-op update, leaving the store unchanged, and still answers ok; and on
any store the update is an idempotent single-field change — applying it
twice equals applying it once. -/
theorem attachImage_behaviour (links : List Link) (s f : String) (hs : s ≠ "") :
    ((∀ l ∈ links, l.slug ≠ s) → (attachImageRoute links (some s) (some f)).1 = links) ∧
    (attachImageRoute links (some s) (some f)).2 = UploadResponse.ok ("/uploads/" ++ f) ∧
    attachImageRoute (attachImageRoute links (some s) (some f)).1 (some s) (some f)
      = attachImageRoute links (some s) (some f) := by
  have hupd : ∀ a : Link,
      (fun l => if l.slug = s then { l with imagePath := some ("/uploads/" ++ f) } else l)
        ((fun l => if l.slug = s then { l with imagePath := some ("/uploads/" ++ f) } else l) a)
      = (fun l => if l.slug = s then { l with imagePath := some ("/uploads/" ++ f) } else l) a := by
    intro a
    by_cases h : a.slug = s <;> simp [h]
  refine ⟨?_, ?_, ?_⟩
  · intro hnone
    simp only [attachImageRoute, if_neg hs]
    conv_rhs => rw [← List.map_id links]
    exact List.map_congr_left (fun a ha => by simp [hnone a ha])
  · simp [attachImageRoute, hs]
  · simp only [attachImageRoute, if_neg hs]
    rw [List.map_map]
    congr 1
    exact List.map_congr_left (fun a _ => hupd a)

/-- C7 witness: the amended behaviour at the one-link store, attaching
to the unknown slug `"x"`. -/
theorem attachImage_behaviour_witness :
    ((∀ l ∈ linksOne, l.slug ≠ "x") →
      (attachImageRoute linksOne (some "x") (some "g.png")).1 = linksOne) ∧
    (attachImageRoute linksOne (some "x") (some "g.png")).2
      = UploadResponse.ok ("/uploads/" ++ "g.png") ∧
    attachImageRoute (attachImageRoute linksOne (some "x") (some "g.png")).1
        (some "x") (some "g.png")
      = attachImageRoute linksOne (some "x") (some "g.png") :=
  attachImage_behaviour linksOne "x" "g.png" (by decide)

/-- C8: for every slug and every underlying event list, the rows
returned by `GET /api/events` are ordered by `occurredAt` descending
(newest first) and never number more than 1000, however many matching
rows exist. -/
theorem listEvents_sorted_capped (events : List StoredEvent) (slug : String) :
    (listEvents events slug).length ≤ 1000 ∧
    List.Sorted newestFirst (listEvents events slug) := by
  constructor
  · exact List.length_take_le _ _
  · exact List.Pairwise.sublist (List.take_sublist _ _)
      (List.sorted_insertionSort newestFirst _)

/-- C9: for every persisted event whose triggering request carried a
missing or empty client-signature string, the classification is the
all-null result — null device, OS, and browser families with
`isBot = false`; classification is a pure function of the signature
(deterministic, no I/O) by construction of the embedding. -/
theorem classify_empty_all_null (env : String → FetchOutcome)
    (slug : Option String) (ty : String) (req : RequestCtx)
    (extra : Option ClientFacts) (row : EventRow)
    (hua : req.userAgent = none ∨ req.userAgent = some "")
    (hp : logEvent env StorageOutcome.ok slug ty req extra = Except.ok (some row)) :
    classify "" = ⟨none, none, none, false⟩ ∧
    row.deviceFamily = none ∧ row.osFamily = none ∧
    row.browserFamily = none ∧ row.isBot = false := by
  have hrow := logEvent_ok_row _ _ _ _ _ _ hp
  subst hrow
  have hstr : req.userAgent.getD "" = "" := by
    rcases hua with h | h <;> simp [h]
  refine ⟨rfl, ?_, ?_, ?_, ?_⟩ <;> simp [buildEvent, hstr, classify]

/-- C9 witness: the all-null classification at a concrete request with
no user-agent header. -/
theorem classify_empty_all_null_witness :
    classify "" = ⟨none, none, none, false⟩ ∧
    (buildEvent envSuccess (some "s") "view" reqBasic none).deviceFamily = none ∧
    (buildEvent envSuccess (some "s") "view" reqBasic none).osFamily = none ∧
    (buildEvent envSuccess (some "s") "view" reqBasic none).browserFamily = none ∧
    (buildEvent envSuccess (some "s") "view" reqBasic none).isBot = false :=
  classify_empty_all_null envSuccess (some "s") "view" reqBasic none _ (Or.inl rfl) rfl

/-- Two location-facts objects that agree on coordinates and accuracy
produce, up to the payload column, identical assembled rows: the
pipeline never reads the client's `accuracySource` tag. -/
theorem buildEvent_extra_congr (env : String → FetchOutcome)
    (slug : Option String) (ty : String) (req : RequestCtx)
    (e₁ e₂ : ClientFacts) (hla : e₁.latitude = e₂.latitude)
    (hlo : e₁.longitude = e₂.longitude) (hacc : e₁.accuracy = e₂.accuracy) :
    erasePayload (buildEvent env slug ty req (some e₁))
      = erasePayload (buildEvent env slug ty req (some e₂)) := by
  simp [buildEvent, erasePayload, hla, hlo, hacc]

/-- C10: two `POST /api/collect/location` calls identical except for
the client-supplied `accuracySource` tag persist the same
`accuracy_source` column — indeed rows identical in every column except
the opaque payload blob, which is where the tag survives verbatim. -/
theorem accuracySource_tag_noninterference (env : String → FetchOutcome)
    (req : RequestCtx) (b₁ b₂ : LocationBody) (r₁ r₂ : EventRow)
    (h₁ : collectLocation env StorageOutcome.ok req b₁ = Except.ok (some r₁))
    (h₂ : collectLocation env StorageOutcome.ok req b₂ = Except.ok (some r₂))
    (hslug : b₁.slug = b₂.slug) (hla : b₁.latitude = b₂.latitude)
    (hlo : b₁.longitude = b₂.longitude) (hacc : b₁.accuracy = b₂.accuracy) :
    r₁.accuracySource = r₂.accuracySource ∧
    erasePayload r₁ = erasePayload r₂ ∧
    r₁.payload = some (locationExtra b₁) ∧ r₂.payload = some (locationExtra b₂) := by
  have hr₁ := logEvent_ok_row _ _ _ _ _ _ h₁
  have hr₂ := logEvent_ok_row _ _ _ _ _ _ h₂
  subst hr₁; subst hr₂
  rw [hslug]
  have hE := buildEvent_extra_congr env b₂.slug "location" req
    (locationExtra b₁) (locationExtra b₂)
    (by simp [locationExtra, hla]) (by simp [locationExtra, hlo])
    (by simp [locationExtra, hacc])
  have hsrc := congrArg EventRow.accuracySource hE
  exact ⟨hsrc, hE, rfl, rfl⟩

/-- A location body tagged `gps_or_wifi` by the client. -/
def bodyTagA : LocationBody := ⟨some "s", some 37, some (-122), some 15, some "gps_or_wifi"⟩

/-- The same location body with no client tag. -/
def bodyTagB : LocationBody := ⟨some "s", some 37, some (-122), some 15, none⟩

/-- The rows the two tagged calls persist. -/
def rowTagA : EventRow :=
  buildEvent envSuccess (some "s") "location" reqBasic (some (locationExtra bodyTagA))

/-- The row the untagged call persists. -/
def rowTagB : EventRow :=
  buildEvent envSuccess (some "s") "location" reqBasic (some (locationExtra bodyTagB))

/-- C10 witness: the noninterference theorem at two concrete bodies
differing only in the client tag. -/
theorem accuracySource_tag_noninterference_witness :
    rowTagA.accuracySource = rowTagB.accuracySource ∧
    erasePayload rowTagA = erasePayload rowTagB ∧
    rowTagA.payload = some (locationExtra bodyTagA) ∧
    rowTagB.payload = some (locationExtra bodyTagB) :=
  accuracySource_tag_noninterference envSuccess reqBasic bodyTagA bodyTagB
    rowTagA rowTagB rfl rfl rfl rfl rfl rfl
